import Mathlib

/-!
Verification of the yt-frontend normalization / derived-metrics layer.

The repository contains four near-duplicate single-page variants:
* `src/unnamed/part_000` (first document, lines 1-167)  — "variant A" below;
* `src/unnamed/part_000` (second document, lines 167-399) — "variant B";
* `src/unnamed/part_001` — "variant C";
* `src/src/App.jsx` — "variant D".

JavaScript numbers are modelled exactly as rationals extended with NaN and
the two infinities (`JSNum`); a backend field value is modelled by the two
observations the code makes of it: its JS truthiness and its `Number(...)`
(ToNumber) image (`JSValue`).  Arithmetic is exact (rational) rather than
binary floating point; this is the idealization the spec itself uses.
-/

namespace YT

/-- A JavaScript number: an exact finite value, NaN, or a signed infinity. -/
inductive JSNum where
  | finite (q : ℚ)
  | nan
  | inf
  | negInf
deriving DecidableEq, Repr

/-- JS truthiness of a number: `NaN` and `±0` are falsy, everything else truthy. -/
def JSNum.truthy : JSNum → Bool
  | .finite q => decide (q ≠ 0)
  | .nan => false
  | .inf => true
  | .negInf => true

/-- A backend field value, abstracted to the two observations the code makes
of it: its JS truthiness and the result of JS ToNumber (`Number(x)`). -/
structure JSValue where
  truthy : Bool
  toNumber : JSNum
deriving DecidableEq, Repr

/-- The JS value `undefined` (absent field): falsy, converts to NaN. -/
def jsUndefined : JSValue := ⟨false, .nan⟩

/-- The JS number `q` as a field value: truthy unless zero, converts to itself. -/
def jsNumVal (q : ℚ) : JSValue := ⟨decide (q ≠ 0), .finite q⟩

/-- A non-numeric text field value such as `"abc"`: truthy (non-empty string),
`Number("abc") = NaN`. -/
def strNonNumeric : JSValue := ⟨true, .nan⟩

/-- The text field value `"Infinity"`: truthy, `Number("Infinity") = Infinity`. -/
def strInfinityText : JSValue := ⟨true, .inf⟩

/-- The coercion pattern `Number(x) || 0` of variants A (part_000 lines 33-35),
B is different, C (part_001 lines 51-53): convert first, then replace a falsy
number (NaN or 0) by 0. -/
def safeNum (v : JSValue) : JSNum :=
  if v.toNumber.truthy then v.toNumber else .finite 0

/-- The coercion pattern `Number(x || 0)` of variant B (part_000 lines 220-222):
replace a falsy raw value by 0 first, then convert. -/
def safeNumAlt (v : JSValue) : JSNum :=
  if v.truthy then v.toNumber else .finite 0

/-- `C1` (counterexample): the numeric coercion does *not* always return a
finite number ≥ 0.  `Number(x) || 0` maps the valid number `-5` to `-5 < 0`
and the text `"Infinity"` to `Infinity` (not finite); `Number(x || 0)` maps
the non-numeric text `"abc"` to `NaN`. -/
theorem C1_coercion_not_always_nonneg_finite :
    safeNum (jsNumVal (-5)) = JSNum.finite (-5) ∧
    safeNum strInfinityText = JSNum.inf ∧
    safeNumAlt strNonNumeric = JSNum.nan := by
  decide

/-- `C1` (amended): `Number(x) || 0` returns a finite number ≥ 0 whenever the
conversion yields NaN or a non-negative finite number (it substitutes zero
exactly for falsy numbers, i.e. NaN and 0; negative and infinite conversions
pass through unchanged); `Number(x || 0)` returns a finite number ≥ 0 whenever
the raw value is falsy or converts to a non-negative finite number (truthy
non-numeric text yields NaN). -/
theorem C1_coercion_amended (v : JSValue) (q : ℚ) :
    ((v.toNumber = JSNum.nan ∨ (v.toNumber = JSNum.finite q ∧ 0 ≤ q)) →
      ∃ r : ℚ, 0 ≤ r ∧ safeNum v = JSNum.finite r) ∧
    ((v.truthy = false ∨ (v.toNumber = JSNum.finite q ∧ 0 ≤ q)) →
      ∃ r : ℚ, 0 ≤ r ∧ safeNumAlt v = JSNum.finite r) := by
  constructor
  · rintro (h | ⟨h, hq⟩)
    · exact ⟨0, le_refl 0, by simp [safeNum, h, JSNum.truthy]⟩
    · by_cases h0 : q = 0
      · exact ⟨0, le_refl 0, by simp [safeNum, h, h0, JSNum.truthy]⟩
      · exact ⟨q, hq, by simp [safeNum, h, h0, JSNum.truthy]⟩
  · rintro (h | ⟨h, hq⟩)
    · exact ⟨0, le_refl 0, by simp [safeNumAlt, h]⟩
    · by_cases ht : v.truthy
      · exact ⟨q, hq, by simp [safeNumAlt, ht, h]⟩
      · exact ⟨0, le_refl 0, by simp [safeNumAlt, ht]⟩

/-- `C1` witness: the amended coercion property at the concrete number 5. -/
theorem C1_coercion_amended_witness :
    (∃ r : ℚ, 0 ≤ r ∧ safeNum (jsNumVal 5) = JSNum.finite r) ∧
    (∃ r : ℚ, 0 ≤ r ∧ safeNumAlt (jsNumVal 5) = JSNum.finite r) :=
  ⟨(C1_coercion_amended (jsNumVal 5) 5).1 (Or.inr ⟨rfl, by norm_num⟩),
   (C1_coercion_amended (jsNumVal 5) 5).2 (Or.inr ⟨rfl, by norm_num⟩)⟩

/-!  ## MetricsDeriver (variants A/B/C; part_000 lines 37-43 and 224-234,
part_001 lines 55-61 — textually identical logic)  -/

/-- JS `Math.round`: round half toward positive infinity, `⌊q + 1/2⌋`. -/
def jsRound (q : ℚ) : ℤ := ⌊q + 1 / 2⌋

/-- `const avgViews = vids > 0 ? Math.round(views / vids) : 0;` -/
def avgViews (views vids : ℚ) : ℤ :=
  if 0 < vids then jsRound (views / vids) else 0

/-- `const subsPerVideo = vids > 0 ? Math.round(subs / vids) : 0;` -/
def subsPerVideo (subs vids : ℚ) : ℤ :=
  if 0 < vids then jsRound (subs / vids) else 0

/-- `const healthScore = Math.min(100, Math.round(avgViews / 1000 +
subsPerVideo / 50 + vids / 10));` -/
def healthScore (subs views vids : ℚ) : ℤ :=
  min 100 (jsRound ((avgViews views vids : ℚ) / 1000 +
    (subsPerVideo subs vids : ℚ) / 50 + vids / 10))

/-- `C2` (counterexample): the coerced triple `(0, 0, -50)` is in the image of
the coercion (the backend field value `-50` coerces to `-50`), and on it the
health score is `-5 < 0`, violating the claimed lower bound. -/
theorem C2_healthScore_not_always_nonneg :
    safeNum (jsNumVal (-50)) = JSNum.finite (-50) ∧
    healthScore 0 0 (-50) = -5 := by
  constructor
  · decide
  · norm_num [healthScore, avgViews, subsPerVideo, jsRound]

/-- `C2` (amended): the health score is always computed as
`min(100, round(avgViews/1000 + subsPerVideo/50 + vids/10))` and never exceeds
100 regardless of input magnitude; it is ≥ 0 provided the (finite) coerced
inputs are non-negative. -/
theorem C2_healthScore_amended (subs views vids : ℚ) :
    healthScore subs views vids =
      min 100 (jsRound ((avgViews views vids : ℚ) / 1000 +
        (subsPerVideo subs vids : ℚ) / 50 + vids / 10)) ∧
    healthScore subs views vids ≤ 100 ∧
    (0 ≤ subs → 0 ≤ views → 0 ≤ vids → 0 ≤ healthScore subs views vids) := by
  refine ⟨rfl, min_le_left _ _, fun hs hv hn => ?_⟩
  have round_nonneg : ∀ q : ℚ, 0 ≤ q → (0 : ℤ) ≤ jsRound q := by
    intro q hq
    exact Int.le_floor.mpr (by push_cast; linarith)
  have havg : (0 : ℤ) ≤ avgViews views vids := by
    unfold avgViews
    split
    · exact round_nonneg _ (div_nonneg hv (by linarith))
    · exact le_refl 0
  have hspv : (0 : ℤ) ≤ subsPerVideo subs vids := by
    unfold subsPerVideo
    split
    · exact round_nonneg _ (div_nonneg hs (by linarith))
    · exact le_refl 0
  have h1 : (0 : ℚ) ≤ (avgViews views vids : ℚ) / 1000 := by positivity
  have h2 : (0 : ℚ) ≤ (subsPerVideo subs vids : ℚ) / 50 := by positivity
  have h3 : (0 : ℚ) ≤ vids / 10 := by positivity
  refine le_min (by norm_num) (round_nonneg _ (by linarith))

/-- `C2` witness: the amended health-score bounds at the concrete coerced
triple `(1200, 5000000, 50)` from the spec's worked scenario. -/
theorem C2_healthScore_amended_witness :
    healthScore 1200 5000000 50 ≤ 100 ∧ 0 ≤ healthScore 1200 5000000 50 :=
  ⟨(C2_healthScore_amended 1200 5000000 50).2.1,
   (C2_healthScore_amended 1200 5000000 50).2.2 (by norm_num) (by norm_num)
     (by norm_num)⟩

/-- `C3`: for every coerced `(subs, views, vids)`, if `vids = 0` both ratio
metrics are exactly 0 (no division-by-zero fault), and if `vids > 0` they are
`round(views / vids)` and `round(subs / vids)` respectively. -/
theorem C3_ratio_metrics (subs views vids : ℚ) :
    (vids = 0 → avgViews views vids = 0 ∧ subsPerVideo subs vids = 0) ∧
    (0 < vids → avgViews views vids = jsRound (views / vids) ∧
      subsPerVideo subs vids = jsRound (subs / vids)) := by
  constructor
  · rintro rfl
    constructor <;> simp [avgViews, subsPerVideo]
  · intro h
    constructor <;> simp [avgViews, subsPerVideo, h]

/-- `C3` witness: the ratio metrics at `vids = 0` (no fault, exact zeros) and
at the spec-scenario input `vids = 50`, `views = 5000000`, `subs = 1200`. -/
theorem C3_ratio_metrics_witness :
    (avgViews 5000000 0 = 0 ∧ subsPerVideo 1200 0 = 0) ∧
    (avgViews 5000000 50 = jsRound (5000000 / 50) ∧
      subsPerVideo 1200 50 = jsRound (1200 / 50)) :=
  ⟨(C3_ratio_metrics 1200 5000000 0).1 rfl,
   (C3_ratio_metrics 1200 5000000 50).2 (by norm_num)⟩

/-!  ## VideoRanker (part_000 lines 45-48 and 236-239, part_001 lines 63-66)

`const topVideos = videos.filter(v => Number(v.views) > 0)
  .sort((a, b) => b.views - a.views).slice(0, 3);`

`Array.prototype.sort` is stable (ES2019) and is modelled by the stable
`List.mergeSort`; per ES `SortCompare`, a NaN comparator result is treated
as `+0`.  JS `-` applies ToNumber to both operands.  -/

/-- A fetched video record: identifying/display fields plus the raw `views`
field value as delivered by the backend. -/
structure VideoRecord where
  videoId : String
  title : String
  thumbnail : String
  views : JSValue
deriving DecidableEq, Repr

/-- The coerced view count `Number(v.views)` of a record. -/
def viewsNum (v : VideoRecord) : JSNum := v.views.toNumber

/-- JS `x > 0` on a number: false for NaN and `-Infinity`. -/
def jsGtZero : JSNum → Bool
  | .finite q => decide (0 < q)
  | .nan => false
  | .inf => true
  | .negInf => false

/-- JS subtraction on numbers (after ToNumber): NaN is absorbing and
`∞ - ∞ = NaN`. -/
def jsSub : JSNum → JSNum → JSNum
  | .nan, _ => .nan
  | _, .nan => .nan
  | .inf, .inf => .nan
  | .inf, _ => .inf
  | .negInf, .negInf => .nan
  | .negInf, _ => .negInf
  | .finite _, .inf => .negInf
  | .finite _, .negInf => .inf
  | .finite p, .finite q => .finite (p - q)

/-- "The comparator value is ≤ 0" under the ES `SortCompare` convention that a
NaN result counts as `+0`. -/
def sortCompLe : JSNum → Bool
  | .finite q => decide (q ≤ 0)
  | .nan => true
  | .inf => false
  | .negInf => true

/-- The sort comparator `(a, b) => b.views - a.views`, as the boolean
"`a` may precede `b`" relation consumed by the stable sort. -/
def viewsDescLe (a b : VideoRecord) : Bool :=
  sortCompLe (jsSub (viewsNum b) (viewsNum a))

/-- The top-videos pipeline: filter to coerced views > 0, stable sort by the
comparator, truncate to the first 3. -/
def topVideos (videos : List VideoRecord) : List VideoRecord :=
  ((videos.filter fun v => jsGtZero (viewsNum v)).mergeSort viewsDescLe).take 3

/-- Spec-side total preorder on JS numbers ("`x ≤ y` by value"), placing NaN
at the bottom; used to state "sorted by descending coerced views". -/
def jsNumLe : JSNum → JSNum → Bool
  | .nan, _ => true
  | _, .nan => false
  | .negInf, _ => true
  | _, .negInf => false
  | .finite q, .finite r => decide (q ≤ r)
  | .finite _, .inf => true
  | .inf, .inf => true
  | .inf, .finite _ => false

/-- "Descending by coerced views": `a` may precede `b` iff `b`'s coerced view
count is ≤ `a`'s in the `jsNumLe` order. -/
def viewsGe (a b : VideoRecord) : Bool := jsNumLe (viewsNum b) (viewsNum a)

theorem jsNumLe_refl (x : JSNum) : jsNumLe x x = true := by
  cases x <;> simp [jsNumLe]

theorem viewsGe_trans (a b c : VideoRecord) (h1 : viewsGe a b = true)
    (h2 : viewsGe b c = true) : viewsGe a c = true := by
  unfold viewsGe at *
  cases ha : viewsNum a <;> cases hb : viewsNum b <;> cases hc : viewsNum c <;>
    simp_all [jsNumLe] <;> linarith

theorem viewsGe_total (a b : VideoRecord) :
    (viewsGe a b || viewsGe b a) = true := by
  unfold viewsGe
  cases ha : viewsNum a <;> cases hb : viewsNum b <;> simp_all [jsNumLe] <;>
    exact le_total _ _

/-- On records that pass the positive-views filter (where the coerced views
are a positive rational or `+∞`), the source comparator relation coincides
with the spec-side "descending by coerced views" relation. -/
theorem viewsDescLe_eq_viewsGe (a b : VideoRecord)
    (ha : jsGtZero (viewsNum a) = true) (hb : jsGtZero (viewsNum b) = true) :
    viewsDescLe a b = viewsGe a b := by
  unfold viewsDescLe viewsGe
  cases hva : viewsNum a <;> cases hvb : viewsNum b <;>
    simp_all [jsGtZero, jsSub, sortCompLe, jsNumLe, sub_nonpos]

/-- On a list of records that all pass the filter, sorting with the source
comparator equals sorting with the spec-side descending order. -/
theorem mergeSort_viewsDescLe_eq (l : List VideoRecord)
    (hl : ∀ v ∈ l, jsGtZero (viewsNum v) = true) :
    l.mergeSort viewsDescLe = l.mergeSort viewsGe := by
  have h := List.map_mergeSort (f := id) (r := viewsDescLe) (s := viewsGe)
    (l := l) (fun a ha b hb => viewsDescLe_eq_viewsGe a b (hl a ha) (hl b hb))
  simpa using h

/-- `C4`: the top-videos output is the input filtered to coerced views > 0,
stably sorted by descending coerced views, truncated to the first 3: its
length is ≤ 3, every element has coerced views > 0, it is pairwise descending
in coerced views, the sorted base is a permutation of the filtered input, and
records with equal coerced views keep their original relative order.  (The
input list itself is never mutated: `filter` allocates the array the in-place
sort operates on.) -/
theorem C4_topVideos_spec (ls : List VideoRecord) :
    topVideos ls =
      ((ls.filter fun v => jsGtZero (viewsNum v)).mergeSort viewsDescLe).take 3 ∧
    (topVideos ls).length ≤ 3 ∧
    (∀ v ∈ topVideos ls, jsGtZero (viewsNum v) = true) ∧
    ((ls.filter fun v => jsGtZero (viewsNum v)).mergeSort viewsDescLe).Perm
      (ls.filter fun v => jsGtZero (viewsNum v)) ∧
    (topVideos ls).Pairwise (fun a b => jsNumLe (viewsNum b) (viewsNum a) = true) ∧
    (∀ a b, viewsNum a = viewsNum b →
      List.Sublist [a, b] (ls.filter fun v => jsGtZero (viewsNum v)) →
      List.Sublist [a, b]
        ((ls.filter fun v => jsGtZero (viewsNum v)).mergeSort viewsDescLe)) := by
  have hfil : ∀ v ∈ ls.filter (fun v => jsGtZero (viewsNum v)),
      jsGtZero (viewsNum v) = true := fun v hv => (List.mem_filter.mp hv).2
  have heq := mergeSort_viewsDescLe_eq _ hfil
  refine ⟨rfl, ?_, ?_, List.mergeSort_perm _ _, ?_, ?_⟩
  · simpa [topVideos, List.length_take] using min_le_left 3 _
  · intro v hv
    exact hfil v (List.mem_mergeSort.mp (List.mem_of_mem_take hv))
  · have hs : ((ls.filter fun v => jsGtZero (viewsNum v)).mergeSort
        viewsGe).Pairwise (fun a b => viewsGe a b = true) :=
      List.sorted_mergeSort viewsGe_trans viewsGe_total _
    have hs' : ((ls.filter fun v => jsGtZero (viewsNum v)).mergeSort
        viewsDescLe).Pairwise (fun a b => jsNumLe (viewsNum b) (viewsNum a) = true) := by
      rw [heq]
      exact hs.imp (fun h => h)
    exact hs'.sublist (List.take_sublist _ _)
  · intro a b hab hsub
    have hle : viewsGe a b = true := by
      unfold viewsGe
      rw [hab]
      exact jsNumLe_refl _
    rw [heq]
    exact List.pair_sublist_mergeSort viewsGe_trans viewsGe_total hle hsub

/-!  ## AnalysisSession orchestrator

`analyze` (part_000 lines 13-31 for variant A, lines 196-217 for variant B,
part_001 lines 30-48 for variant C, App.jsx lines 83-106 for variant D) is
modelled as the sequence of observable events one invocation produces —
state-setter calls and fetch issuances in source order — given the outcome of
each fetch.  `runEvents` folds the state updates over a starting state. -/

/-- Outcome of one external fetch: resolved with a body, or failed (network
error / rejected promise). -/
inductive FetchResult (α : Type) where
  | ok (data : α)
  | failure
deriving DecidableEq, Repr

/-- A channel-shaped response body: the three numeric-or-unknown fields the
derivation layer reads. -/
structure ChannelRec where
  subscribers : JSValue
  views : JSValue
  videos : JSValue
deriving DecidableEq, Repr

/-- The JSON body of the channel response: a channel-shaped object (always
truthy) or some other primitive value. -/
inductive ChanData where
  | record (c : ChannelRec)
  | prim (v : JSValue)
deriving DecidableEq, Repr

/-- JS truthiness of a channel response body: objects are truthy. -/
def ChanData.isTruthy : ChanData → Bool
  | .record _ => true
  | .prim v => v.truthy

/-- The JSON body of the videos response: an array of video records, or a
non-array value identified by a tag (e.g. an error object). -/
inductive VideosPayload where
  | arr (l : List VideoRecord)
  | nonArray (tag : String)
deriving DecidableEq, Repr

/-- `Array.isArray(data) ? data : []` (variants A/B/C). -/
def asArray : VideosPayload → List VideoRecord
  | .arr l => l
  | .nonArray _ => []

/-- `data || null` (variants A/B/C store the channel body this way). -/
def orNull (d : ChanData) : Option ChanData :=
  if d.isTruthy then some d else none

/-- The session state: query text, fetched channel body (or null), stored
videos value, loading flag, error text (unused by variant D). -/
structure SessionState where
  query : String
  channel : Option ChanData
  videos : VideosPayload
  loading : Bool
  error : String
deriving DecidableEq, Repr

/-- An observable step of one `analyze` invocation: a state-setter call, a
fetch issuance, or (variant D) an alert. -/
inductive Event where
  | setLoading (b : Bool)
  | setError (e : String)
  | setChannel (c : Option ChanData)
  | setVideos (v : VideosPayload)
  | fetchChannel
  | fetchVideos
  | alert (msg : String)
deriving DecidableEq, Repr

/-- Whether an event issues a network fetch. -/
def Event.isFetch : Event → Bool
  | .fetchChannel => true
  | .fetchVideos => true
  | _ => false

/-- Effect of one event on the session state. -/
def applyEvent (s : SessionState) : Event → SessionState
  | .setLoading b => { s with loading := b }
  | .setError e => { s with error := e }
  | .setChannel c => { s with channel := c }
  | .setVideos v => { s with videos := v }
  | .fetchChannel => s
  | .fetchVideos => s
  | .alert _ => s

/-- Cumulative effect of an event sequence. -/
def runEvents (s : SessionState) (es : List Event) : SessionState :=
  es.foldl applyEvent s

/-- One `analyze` invocation of variants A/B/C (part_000 lines 13-31 and
196-217, part_001 lines 30-48): guard on empty query; set loading, clear
error, channel, videos; fetch channel then videos (a failed first await skips
the second); on success store `ch.data || null` and
`Array.isArray(vd.data) ? vd.data : []`; on any failure set the error text;
finally reset loading. -/
def analyzeEvents (query : String) (ch : FetchResult ChanData)
    (vd : FetchResult VideosPayload) : List Event :=
  if query = "" then []
  else
    [.setLoading true, .setError "", .setChannel none, .setVideos (.arr []),
     .fetchChannel] ++
    match ch with
    | .failure => [.setError "Failed to fetch channel data", .setLoading false]
    | .ok c =>
      [.fetchVideos] ++
      match vd with
      | .failure =>
        [.setError "Failed to fetch channel data", .setLoading false]
      | .ok p => [.setChannel (orNull c), .setVideos (.arr (asArray p)),
          .setLoading false]

/-- One `analyze` invocation of variant D (App.jsx lines 83-106): no error
state (an alert instead), the channel body and the videos payload are stored
verbatim with no `|| null` and no `Array.isArray` guard. -/
def analyzeEventsApp (query : String) (ch : FetchResult ChanData)
    (vd : FetchResult VideosPayload) : List Event :=
  if query = "" then []
  else
    [.setLoading true, .setChannel none, .setVideos (.arr []),
     .fetchChannel] ++
    match ch with
    | .failure => [.alert "Channel not found or API error", .setLoading false]
    | .ok c =>
      [.fetchVideos] ++
      match vd with
      | .failure => [.alert "Channel not found or API error", .setLoading false]
      | .ok p => [.setChannel (some c), .setVideos p, .setLoading false]

/-- A concrete truthy channel body used in concrete runs. -/
def sampleChan : ChanData :=
  .record ⟨jsNumVal 1200, jsNumVal 5000000, jsNumVal 50⟩

/-- The initial session state after a query has been typed. -/
def initState : SessionState := ⟨"mrbeast", none, .arr [], false, ""⟩

/-- `C5` (counterexample): variant D (App.jsx lines 99-100) stores the videos
payload without an `Array.isArray` guard, so a resolved non-array payload is
stored verbatim — not as the empty sequence the claim requires in every
variant. -/
theorem C5_nonArray_counterexample :
    (runEvents initState (analyzeEventsApp "mrbeast" (.ok sampleChan)
      (.ok (.nonArray "errorObject")))).videos =
      VideosPayload.nonArray "errorObject" ∧
    VideosPayload.nonArray "errorObject" ≠ VideosPayload.arr [] := by
  constructor
  · rfl
  · decide

/-- `C5` (amended): in the variants guarding with `Array.isArray` (A/B/C), a
resolved non-array video payload is stored as the empty sequence with no
fault, and the top-videos pipeline on the resulting empty sequence is empty
(so the panel does not render); variant D stores the payload verbatim. -/
theorem C5_nonArray_amended (s0 : SessionState) (q : String) (c : ChanData)
    (tag : String) (hq : q ≠ "") :
    (runEvents s0 (analyzeEvents q (.ok c) (.ok (.nonArray tag)))).videos =
      VideosPayload.arr [] ∧
    topVideos (asArray (.nonArray tag)) = [] := by
  constructor
  · simp [analyzeEvents, hq, runEvents, applyEvent, asArray]
  · simp [topVideos, asArray]

/-- `C5` witness: the amended guarded behaviour on a concrete run. -/
theorem C5_nonArray_amended_witness :
    (runEvents initState (analyzeEvents "mrbeast" (.ok sampleChan)
      (.ok (.nonArray "errorObject")))).videos = VideosPayload.arr [] ∧
    topVideos (asArray (.nonArray "errorObject")) = [] :=
  C5_nonArray_amended initState "mrbeast" sampleChan "errorObject" (by decide)

/-- `C6`: every variant A/C `analyze` invocation with a non-empty query clears
channel, videos, and error before any fetch is issued (the state reached just
before each fetch event has them cleared), and when either fetch fails the
final state has the user-visible error text with channel and videos still
empty. -/
theorem C6_analyze_clears_and_catches (s0 : SessionState) (q : String)
    (ch : FetchResult ChanData) (vd : FetchResult VideosPayload)
    (hq : q ≠ "") :
    (∀ (i : ℕ) (hi : i < (analyzeEvents q ch vd).length),
      ((analyzeEvents q ch vd).get ⟨i, hi⟩).isFetch = true →
      (runEvents s0 ((analyzeEvents q ch vd).take i)).channel = none ∧
      (runEvents s0 ((analyzeEvents q ch vd).take i)).videos =
        VideosPayload.arr [] ∧
      (runEvents s0 ((analyzeEvents q ch vd).take i)).error = "") ∧
    ((ch = .failure ∨ vd = .failure) →
      (runEvents s0 (analyzeEvents q ch vd)).channel = none ∧
      (runEvents s0 (analyzeEvents q ch vd)).videos = VideosPayload.arr [] ∧
      (runEvents s0 (analyzeEvents q ch vd)).error =
        "Failed to fetch channel data") := by
  constructor
  · intro i hi hf
    cases ch <;> cases vd <;>
      (simp only [analyzeEvents, if_neg hq] at hi hf ⊢
       simp at hi
       interval_cases i <;> simp_all [runEvents, applyEvent, Event.isFetch])
  · intro hfail
    cases ch <;> cases vd <;>
      simp_all [analyzeEvents, if_neg hq, runEvents, applyEvent]

/-- `C6` witness: a concrete failed run ends with the error text and empty
channel and videos. -/
theorem C6_analyze_clears_and_catches_witness :
    (runEvents initState (analyzeEvents "mrbeast" .failure .failure)).channel =
      none ∧
    (runEvents initState (analyzeEvents "mrbeast" .failure .failure)).videos =
      VideosPayload.arr [] ∧
    (runEvents initState (analyzeEvents "mrbeast" .failure .failure)).error =
      "Failed to fetch channel data" :=
  (C6_analyze_clears_and_catches initState "mrbeast" .failure .failure
    (by decide)).2 (Or.inl rfl)

/-- `C10`: for every non-empty query and every pair of fetch outcomes, one
completed `analyze` invocation leaves the loading flag false, in variant A/C
and in variant D (the catch branch does not skip the final reset). -/
theorem C10_loading_reset (s0 : SessionState) (q : String)
    (ch : FetchResult ChanData) (vd : FetchResult VideosPayload)
    (hq : q ≠ "") :
    (runEvents s0 (analyzeEvents q ch vd)).loading = false ∧
    (runEvents s0 (analyzeEventsApp q ch vd)).loading = false := by
  cases ch <;> cases vd <;>
    simp [analyzeEvents, analyzeEventsApp, hq, runEvents, applyEvent]

/-- `C10` witness: a concrete failed run leaves loading false in both
modelled variants. -/
theorem C10_loading_reset_witness :
    (runEvents initState (analyzeEvents "mrbeast" .failure .failure)).loading =
      false ∧
    (runEvents initState
      (analyzeEventsApp "mrbeast" .failure .failure)).loading = false :=
  C10_loading_reset initState "mrbeast" .failure .failure (by decide)

/-- A concrete video record with views 100. -/
def recA : VideoRecord := ⟨"idA", "A", "thA", jsNumVal 100⟩

/-- A concrete video record with the same views as `recA`. -/
def recB : VideoRecord := ⟨"idB", "B", "thB", jsNumVal 100⟩

/-- A concrete video record with views 50. -/
def recC : VideoRecord := ⟨"idC", "C", "thC", jsNumVal 50⟩

/-- `C4` witness: the ranking properties at a concrete list, including
stability for the equal-views pair `recA`, `recB`. -/
theorem C4_topVideos_spec_witness :
    (topVideos [recA, recB, recC]).length ≤ 3 ∧
    List.Sublist [recA, recB]
      (([recA, recB, recC].filter fun v =>
        jsGtZero (viewsNum v)).mergeSort viewsDescLe) :=
  ⟨(C4_topVideos_spec [recA, recB, recC]).2.1,
   (C4_topVideos_spec [recA, recB, recC]).2.2.2.2.2 recA recB rfl (by decide)⟩

/-!  ## EarningsEstimator and GrowthPredictor (App.jsx lines 36-44, 49-54) -/

/-- The final two decimal digits of `n`, as text. -/
def twoDigits (n : ℕ) : String :=
  String.mk [Nat.digitChar (n / 10 % 10), Nat.digitChar (n % 10)]

/-- JS `Number.prototype.toFixed(2)` on an exact value: choose the integer
`n` with `n / 100` closest to the value (tie toward the larger `n`), print
`n` with a decimal point before its last two digits; a negative value is the
sign followed by the rendering of its negation. -/
def jsToFixed2 (x : ℚ) : String :=
  if x < 0 then
    "-" ++ (toString ((⌊100 * (-x) + 1 / 2⌋).toNat / 100) ++ "." ++
      twoDigits (⌊100 * (-x) + 1 / 2⌋).toNat)
  else
    toString ((⌊100 * x + 1 / 2⌋).toNat / 100) ++ "." ++
      twoDigits (⌊100 * x + 1 / 2⌋).toNat

/-- Result of the earnings estimator: a monetary range as two text values. -/
structure Earnings where
  low : String
  high : String
deriving DecidableEq, Repr

/-- `estimateEarnings` (App.jsx lines 36-44): `lowCPM = 0.5`, `highCPM = 5`;
`{low: ((views / 1000) * lowCPM).toFixed(2),
  high: ((views / 1000) * highCPM).toFixed(2)}`. -/
def estimateEarnings (views : ℚ) : Earnings :=
  { low := jsToFixed2 (views / 1000 * (1 / 2)),
    high := jsToFixed2 (views / 1000 * 5) }

/-- Evaluation rule for `jsToFixed2` on a non-negative value with a known
rounding. -/
theorem jsToFixed2_eval (x : ℚ) (n : ℤ) (hx : ¬ x < 0)
    (hn : ⌊100 * x + 1 / 2⌋ = n) :
    jsToFixed2 x = toString (n.toNat / 100) ++ "." ++ twoDigits n.toNat := by
  rw [jsToFixed2, if_neg hx, hn]

/-- `s` ends with a decimal point followed by exactly two digits. -/
def TwoDecimalText (s : String) : Prop :=
  ∃ (intPart : String) (d : ℕ),
    s = intPart ++ "." ++ twoDigits d ∧ (twoDigits d).length = 2

/-- `C7`: for every coerced view count `v ≥ 0` the earnings estimate is
`(v/1000)×0.5` and `(v/1000)×5` each formatted as text with exactly two
decimal places, and in particular the estimate at 0 is `{"0.00", "0.00"}` and
at 1000 is `{"0.50", "5.00"}`. -/
theorem C7_earnings (v : ℚ) (h : 0 ≤ v) :
    (estimateEarnings v).low = jsToFixed2 (v / 1000 * (1 / 2)) ∧
    (estimateEarnings v).high = jsToFixed2 (v / 1000 * 5) ∧
    TwoDecimalText (estimateEarnings v).low ∧
    TwoDecimalText (estimateEarnings v).high ∧
    estimateEarnings 0 = ⟨"0.00", "0.00"⟩ ∧
    estimateEarnings 1000 = ⟨"0.50", "5.00"⟩ := by
  have hlow : ¬ v / 1000 * (1 / 2) < 0 := by
    intro hc
    nlinarith
  have hhigh : ¬ v / 1000 * 5 < 0 := by
    intro hc
    nlinarith
  refine ⟨rfl, rfl, ?_, ?_, ?_, ?_⟩
  · refine ⟨toString ((⌊100 * (v / 1000 * (1 / 2)) + 1 / 2⌋).toNat / 100),
      (⌊100 * (v / 1000 * (1 / 2)) + 1 / 2⌋).toNat, ?_, rfl⟩
    exact jsToFixed2_eval (v / 1000 * (1 / 2)) _ hlow rfl
  · refine ⟨toString ((⌊100 * (v / 1000 * 5) + 1 / 2⌋).toNat / 100),
      (⌊100 * (v / 1000 * 5) + 1 / 2⌋).toNat, ?_, rfl⟩
    exact jsToFixed2_eval (v / 1000 * 5) _ hhigh rfl
  · have l := jsToFixed2_eval ((0 : ℚ) / 1000 * (1 / 2)) 0 (by norm_num)
      (by norm_num)
    have r := jsToFixed2_eval ((0 : ℚ) / 1000 * 5) 0 (by norm_num) (by norm_num)
    show Earnings.mk (jsToFixed2 ((0 : ℚ) / 1000 * (1 / 2)))
      (jsToFixed2 ((0 : ℚ) / 1000 * 5)) = _
    rw [l, r]
    decide
  · have l := jsToFixed2_eval ((1000 : ℚ) / 1000 * (1 / 2)) 50 (by norm_num)
      (by norm_num)
    have r := jsToFixed2_eval ((1000 : ℚ) / 1000 * 5) 500 (by norm_num)
      (by norm_num)
    show Earnings.mk (jsToFixed2 ((1000 : ℚ) / 1000 * (1 / 2)))
      (jsToFixed2 ((1000 : ℚ) / 1000 * 5)) = _
    rw [l, r]
    decide

/-- `C7` witness: the earnings contract at the concrete view count 1000. -/
theorem C7_earnings_witness :
    (estimateEarnings 1000).low = jsToFixed2 (1000 / 1000 * (1 / 2)) ∧
    estimateEarnings 1000 = ⟨"0.50", "5.00"⟩ :=
  ⟨(C7_earnings 1000 (by norm_num)).1,
   (C7_earnings 1000 (by norm_num)).2.2.2.2.2⟩

/-- Result of the growth predictor: a 30-day subscriber-gain range. -/
structure Growth where
  min : ℤ
  max : ℤ
deriving DecidableEq, Repr

/-- `predictGrowth` (App.jsx lines 49-54):
`{min: Math.floor(subs * 0.01), max: Math.floor(subs * 0.03)}`. -/
def predictGrowth (subs : ℚ) : Growth :=
  { min := ⌊subs * (1 / 100)⌋, max := ⌊subs * (3 / 100)⌋ }

/-- `C8`: for every coerced subscriber count `s ≥ 0` the growth prediction is
`{floor(s×0.01), floor(s×0.03)}`, truncated (never overstating the bound);
in particular 1000 gives `{10, 30}`, 0 gives `{0, 0}`, and 190 gives
`{1, 5}` (floor, where rounding would give `{2, 6}`). -/
theorem C8_growth (s : ℚ) (_h : 0 ≤ s) :
    predictGrowth s = ⟨⌊s * (1 / 100)⌋, ⌊s * (3 / 100)⌋⟩ ∧
    ((predictGrowth s).min : ℚ) ≤ s * (1 / 100) ∧
    ((predictGrowth s).max : ℚ) ≤ s * (3 / 100) ∧
    predictGrowth 1000 = ⟨10, 30⟩ ∧
    predictGrowth 0 = ⟨0, 0⟩ ∧
    predictGrowth 190 = ⟨1, 5⟩ :=
  ⟨rfl, Int.floor_le _, Int.floor_le _,
   by simp only [predictGrowth, Growth.mk.injEq]; norm_num,
   by simp only [predictGrowth, Growth.mk.injEq]; norm_num,
   by simp only [predictGrowth, Growth.mk.injEq]; constructor <;> norm_num⟩

/-- `C8` witness: the growth contract at the concrete subscriber count
1000. -/
theorem C8_growth_witness :
    predictGrowth 1000 = ⟨⌊(1000 : ℚ) * (1 / 100)⌋, ⌊(1000 : ℚ) * (3 / 100)⌋⟩ ∧
    predictGrowth 1000 = ⟨10, 30⟩ :=
  ⟨(C8_growth 1000 (by norm_num)).1, (C8_growth 1000 (by norm_num)).2.2.2.1⟩

/-!  ## ChartDataBuilder (App.jsx lines 59-78, part_000 lines 241-253,
part_001 lines 69-84)  -/

/-- JS addition of numbers: NaN is absorbing and `∞ + (-∞) = NaN`. -/
def jsAdd : JSNum → JSNum → JSNum
  | .nan, _ => .nan
  | _, .nan => .nan
  | .inf, .negInf => .nan
  | .negInf, .inf => .nan
  | .inf, _ => .inf
  | _, .inf => .inf
  | .negInf, _ => .negInf
  | _, .negInf => .negInf
  | .finite p, .finite q => .finite (p + q)

/-- JS division by a positive finite constant. -/
def jsDivPos (x : JSNum) (c : ℚ) : JSNum :=
  match x with
  | .finite q => .finite (q / c)
  | .nan => .nan
  | .inf => .inf
  | .negInf => .negInf

/-- JS multiplication by a positive finite constant. -/
def jsMulPos (x : JSNum) (c : ℚ) : JSNum :=
  match x with
  | .finite q => .finite (q * c)
  | .nan => .nan
  | .inf => .inf
  | .negInf => .negInf

/-- JS `Math.max(x, c)` with a finite constant: NaN propagates. -/
def jsMaxC (x : JSNum) (c : ℚ) : JSNum :=
  match x with
  | .finite q => .finite (max q c)
  | .nan => .nan
  | .inf => .inf
  | .negInf => .finite c

/-- One chart dataset: optional label, bar values, palette. -/
structure ChartDataset where
  label : Option String
  data : List JSNum
  backgroundColor : List String
deriving DecidableEq, Repr

/-- The labeled chart payload handed to the bar chart. -/
structure ChartData where
  labels : List String
  datasets : List ChartDataset
deriving DecidableEq, Repr

/-- `channel.subscribers` of a stored channel body (`undefined` when the body
is not an object). -/
def ChanData.subsField : ChanData → JSValue
  | .record c => c.subscribers
  | .prim _ => jsUndefined

/-- `channel.views` of a stored channel body. -/
def ChanData.viewsField : ChanData → JSValue
  | .record c => c.views
  | .prim _ => jsUndefined

/-- `channel.videos` of a stored channel body. -/
def ChanData.videosField : ChanData → JSValue
  | .record c => c.videos
  | .prim _ => jsUndefined

/-- `channel?.f`: `undefined` when the channel state is null. -/
def optField (channel : Option ChanData) (f : ChanData → JSValue) : JSValue :=
  match channel with
  | none => jsUndefined
  | some d => f d

/-- Variant D chart (App.jsx lines 59-78): `channel ? {labels, datasets:
[{label: "Channel Stats", data: [Number(channel.subscribers),
Number(channel.views), Number(channel.videos)], backgroundColor}]} : null`. -/
def chartDataApp (channel : Option ChanData) : Option ChartData :=
  match channel with
  | some d =>
    if d.isTruthy then
      some ⟨["Subscribers", "Views", "Videos"],
        [⟨some "Channel Stats",
          [d.subsField.toNumber, d.viewsField.toNumber,
            d.videosField.toNumber],
          ["#ef4444", "#3b82f6", "#22c55e"]⟩]⟩
    else none
  | none => none

/-- Variant B chart (part_000 lines 241-253): shown iff some coerced total is
positive (`showChart = subs > 0 || views > 0 || vids > 0`), with the coerced
totals as bar values. -/
def chartDataB (channel : Option ChanData) : Option ChartData :=
  let subs := safeNumAlt (optField channel ChanData.subsField)
  let views := safeNumAlt (optField channel ChanData.viewsField)
  let vids := safeNumAlt (optField channel ChanData.videosField)
  if jsGtZero subs || jsGtZero views || jsGtZero vids then
    some ⟨["Subscribers", "Views", "Videos"],
      [⟨none, [subs, views, vids], ["#ef4444", "#3b82f6", "#22c55e"]⟩]⟩
  else none

/-- Variant C chart (part_001 lines 69-84): shown iff
`subs + views + vids > 0`, with ratio-scaled bar values
`Math.max(subs/1000, 1)`, `Math.max(views/100000, 1)`,
`Math.max(vids*10, 1)`. -/
def chartDataC (channel : Option ChanData) : Option ChartData :=
  let subs := safeNum (optField channel ChanData.subsField)
  let views := safeNum (optField channel ChanData.viewsField)
  let vids := safeNum (optField channel ChanData.videosField)
  if jsGtZero (jsAdd (jsAdd subs views) vids) then
    some ⟨["Subscribers", "Views", "Videos"],
      [⟨none,
        [jsMaxC (jsDivPos subs 1000) 1, jsMaxC (jsDivPos views 100000) 1,
          jsMaxC (jsMulPos vids 10) 1],
        ["#ef4444", "#3b82f6", "#22c55e"]⟩]⟩
  else none

/-- `C9`: in each variant with a chart, when the three coerced channel inputs
are all zero the chart payload is either omitted (null) or present with three
zero-valued bars: variant D renders three zero bars (or nothing if the channel
state is falsy), variants B and C omit the chart. -/
theorem C9_chart_all_zero (channel : Option ChanData) :
    ((optField channel ChanData.subsField).toNumber = JSNum.finite 0 →
     (optField channel ChanData.viewsField).toNumber = JSNum.finite 0 →
     (optField channel ChanData.videosField).toNumber = JSNum.finite 0 →
      chartDataApp channel = none ∨
      ∃ cd, chartDataApp channel = some cd ∧
        cd.datasets.map ChartDataset.data =
          [[JSNum.finite 0, JSNum.finite 0, JSNum.finite 0]]) ∧
    (safeNumAlt (optField channel ChanData.subsField) = JSNum.finite 0 →
     safeNumAlt (optField channel ChanData.viewsField) = JSNum.finite 0 →
     safeNumAlt (optField channel ChanData.videosField) = JSNum.finite 0 →
      chartDataB channel = none) ∧
    (safeNum (optField channel ChanData.subsField) = JSNum.finite 0 →
     safeNum (optField channel ChanData.viewsField) = JSNum.finite 0 →
     safeNum (optField channel ChanData.videosField) = JSNum.finite 0 →
      chartDataC channel = none) := by
  refine ⟨fun h1 h2 h3 => ?_, fun h1 h2 h3 => ?_, fun h1 h2 h3 => ?_⟩
  · cases channel with
    | none => exact Or.inl (by simp [chartDataApp])
    | some d =>
      by_cases ht : d.isTruthy
      · refine Or.inr ⟨⟨["Subscribers", "Views", "Videos"],
          [⟨some "Channel Stats",
            [d.subsField.toNumber, d.viewsField.toNumber,
              d.videosField.toNumber],
            ["#ef4444", "#3b82f6", "#22c55e"]⟩]⟩, ?_, ?_⟩
        · simp [chartDataApp, ht]
        · simp only [optField] at h1 h2 h3
          simp [h1, h2, h3]
      · exact Or.inl (by simp [chartDataApp, ht])
  · simp [chartDataB, h1, h2, h3, jsGtZero]
  · simp [chartDataC, h1, h2, h3, jsAdd, jsGtZero]

/-- A channel body whose three numeric fields are the JS number 0. -/
def zeroChan : ChanData := .record ⟨jsNumVal 0, jsNumVal 0, jsNumVal 0⟩

/-- `C9` witness: the all-zero policy at the concrete all-zero channel body:
variant D shows three zero bars, variants B and C omit the chart. -/
theorem C9_chart_all_zero_witness :
    (chartDataApp (some zeroChan) = none ∨
      ∃ cd, chartDataApp (some zeroChan) = some cd ∧
        cd.datasets.map ChartDataset.data =
          [[JSNum.finite 0, JSNum.finite 0, JSNum.finite 0]]) ∧
    chartDataB (some zeroChan) = none ∧
    chartDataC (some zeroChan) = none :=
  ⟨(C9_chart_all_zero (some zeroChan)).1 (by decide) (by decide) (by decide),
   (C9_chart_all_zero (some zeroChan)).2.1 (by decide) (by decide) (by decide),
   (C9_chart_all_zero (some zeroChan)).2.2 (by decide) (by decide) (by decide)⟩

end YT
